import Mathlib

/-
Verification of the shard-pool / publish-pipeline core of a Discord
gateway front-end (Rust sources under apps/gateway/src).  Shallow
embedding: each Rust function relevant to the checked properties is
translated to an executable Lean definition; effectful inputs (clock,
UUIDs, broker behaviour, gateway receive stream) are passed explicitly
as parameters or oracle values.
-/

namespace Gateway

/-! ## JSON model (for serde_json::Value payloads)

Objects keep their fields as an ordered association list, matching
serde_json's preserve-order map used by the gateway crate's fixtures. -/

inductive Json where
  | null
  | bool (b : Bool)
  | num (n : Int)
  | str (s : String)
  | arr (elems : List Json)
  | obj (fields : List (String × Json))

/-- Lookup of a key inside the fields of a JSON object. -/
def Json.lookupFields : List (String × Json) → String → Option Json
  | [], _ => none
  | (k, v) :: rest, key => if k = key then some v else Json.lookupFields rest key

/-- Lookup of a key of a JSON value; `none` unless the value is an object
holding the key. -/
def Json.lookupKey : Json → String → Option Json
  | .obj fields, key => Json.lookupFields fields key
  | _, _ => none

/-- Option of a u64 rendered by serde_json's json! (null or number),
as in the member_count field of the guild.join payload. -/
def jsonOfOptNat : Option Nat → Json
  | none => .null
  | some n => .num n

/-- Option of a bool rendered by serde_json's json!. -/
def jsonOfOptBool : Option Bool → Json
  | none => .null
  | some b => .bool b

/-- Option of a String rendered by serde_json's json!. -/
def jsonOfOptStr : Option String → Json
  | none => .null
  | some s => .str s

/-! ## Shard health (shard/state.rs) -/

/-- Health status for a shard (enum ShardHealth in shard/state.rs). -/
inductive ShardHealth where
  | Connecting
  | Ready
  | Resuming
  | Disconnected
  | Dead
deriving DecidableEq

/-- ShardHealth::is_healthy: Ready or Resuming. -/
def ShardHealth.is_healthy : ShardHealth → Bool
  | .Ready => true
  | .Resuming => true
  | _ => false

/-- ShardHealth::is_ready: exactly Ready. -/
def ShardHealth.is_ready : ShardHealth → Bool
  | .Ready => true
  | _ => false

/-- Per-shard entry (struct ShardStateEntry in shard/state.rs).  Instants
are modelled as Nat timestamps supplied by the caller. -/
structure ShardStateEntry where
  health : ShardHealth
  guilds : Nat
  events_received : Nat
  events_routed : Nat
  route_failures : Nat
  last_heartbeat : Option Nat
  connected_at : Option Nat
deriving DecidableEq

/-- Default::default() for ShardStateEntry. -/
def ShardStateEntry.default : ShardStateEntry :=
  { health := .Connecting
  , guilds := 0
  , events_received := 0
  , events_routed := 0
  , route_failures := 0
  , last_heartbeat := none
  , connected_at := none }

/-! ## Shard state map (shard/state.rs)

The DashMap from shard id to entry is modelled as an association list
whose keys are fixed at construction.  get_mut on a key updates the
(unique) entry for that key; a missing key makes the operation a no-op,
as in the source. -/

/-- First entry stored under a shard id (DashMap::get). -/
def findEntry (shard_id : Nat) : List (Nat × ShardStateEntry) → Option ShardStateEntry
  | [] => none
  | (k, e) :: rest => if k = shard_id then some e else findEntry shard_id rest

/-- Update the entry stored under a shard id (DashMap::get_mut); no-op
when the key is absent. -/
def updateEntry (shard_id : Nat) (f : ShardStateEntry → ShardStateEntry) :
    List (Nat × ShardStateEntry) → List (Nat × ShardStateEntry)
  | [] => []
  | (k, e) :: rest =>
    if k = shard_id then (k, f e) :: rest
    else (k, e) :: updateEntry shard_id f rest

/-- Sum of the guilds field over all entries (total_guilds iteration). -/
def guildsSum : List (Nat × ShardStateEntry) → Nat
  | [] => 0
  | (_, e) :: rest => e.guilds + guildsSum rest

/-- Count of entries whose health satisfies a predicate
(the filter().count() iterations of ready_shards / healthy_shards). -/
def countHealth (p : ShardHealth → Bool) : List (Nat × ShardStateEntry) → Nat
  | [] => 0
  | (_, e) :: rest => (if p e.health then 1 else 0) + countHealth p rest

/-- Shared state across all shards in a pool (struct ShardState). -/
structure ShardState where
  pool_id : Nat
  shards : List (Nat × ShardStateEntry)
  total_shards : Nat
deriving DecidableEq

/-- ShardState::new seeds one default entry per shard id. -/
def ShardState.new (pool_id : Nat) (shard_ids : List Nat) (total_shards : Nat) : ShardState :=
  { pool_id
  , shards := shard_ids.map (fun sid => (sid, ShardStateEntry.default))
  , total_shards }

/-- Entry stored for a shard id. -/
def ShardState.entry? (st : ShardState) (shard_id : Nat) : Option ShardStateEntry :=
  findEntry shard_id st.shards

/-- Per-entry application of ShardState::set_health: store the new
health, then set connected_at on the first transition to Ready. -/
def applyHealthToEntry (now : Nat) (health : ShardHealth) (e : ShardStateEntry) : ShardStateEntry :=
  let e1 := { e with health := health }
  if health = .Ready ∧ e1.connected_at = none then { e1 with connected_at := some now }
  else e1

/-- ShardState::set_health.  The clock value that Instant::now() would
return is passed as `now`. -/
def ShardState.set_health (st : ShardState) (now : Nat) (shard_id : Nat) (health : ShardHealth) :
    ShardState :=
  { st with shards := updateEntry shard_id (applyHealthToEntry now health) st.shards }

/-- ShardState::set_guilds. -/
def ShardState.set_guilds (st : ShardState) (shard_id : Nat) (count : Nat) : ShardState :=
  { st with shards := updateEntry shard_id (fun e => { e with guilds := count }) st.shards }

/-- ShardState::record_event. -/
def ShardState.record_event (st : ShardState) (shard_id : Nat) : ShardState :=
  { st with shards :=
      updateEntry shard_id (fun e => { e with events_received := e.events_received + 1 }) st.shards }

/-- ShardState::record_route. -/
def ShardState.record_route (st : ShardState) (shard_id : Nat) : ShardState :=
  { st with shards :=
      updateEntry shard_id (fun e => { e with events_routed := e.events_routed + 1 }) st.shards }

/-- ShardState::record_route_failure. -/
def ShardState.record_route_failure (st : ShardState) (shard_id : Nat) : ShardState :=
  { st with shards :=
      updateEntry shard_id (fun e => { e with route_failures := e.route_failures + 1 }) st.shards }

/-- ShardState::record_heartbeat. -/
def ShardState.record_heartbeat (st : ShardState) (now : Nat) (shard_id : Nat) : ShardState :=
  { st with shards :=
      updateEntry shard_id (fun e => { e with last_heartbeat := some now }) st.shards }

/-- ShardState::get_health. -/
def ShardState.get_health (st : ShardState) (shard_id : Nat) : Option ShardHealth :=
  (st.entry? shard_id).map ShardStateEntry.health

/-- ShardState::total_guilds. -/
def ShardState.total_guilds (st : ShardState) : Nat :=
  guildsSum st.shards

/-- ShardState::ready_shards. -/
def ShardState.ready_shards (st : ShardState) : Nat :=
  countHealth ShardHealth.is_ready st.shards

/-- ShardState::healthy_shards. -/
def ShardState.healthy_shards (st : ShardState) : Nat :=
  countHealth ShardHealth.is_healthy st.shards

/-- ShardState::shard_count. -/
def ShardState.shard_count (st : ShardState) : Nat :=
  st.shards.length

/-- ShardState::is_ready: at least one shard ready. -/
def ShardState.is_ready (st : ShardState) : Bool :=
  decide (0 < st.ready_shards)

/-! ## Gateway events (the Twilight events matched by the core)

Only the fields that serialize.rs and pool.rs read are modelled.
Discord snowflake ids are Nats rendered with toString, matching the
to_string() calls on typed ids in the source. -/

/-- Fields of a guild-created event read by serialize_event. -/
structure GuildCreateData where
  id : Nat
  name : String
  member_count : Option Nat
  owner_id : Nat
deriving DecidableEq

/-- Fields of a guild-deleted event read by serialize_event and
run_shard (unavailable is an Option Bool in twilight 0.17). -/
structure GuildDeleteData where
  id : Nat
  unavailable : Option Bool
deriving DecidableEq

/-- Fields of a member-added event read by serialize_event. -/
structure MemberAddData where
  guild_id : Nat
  user_id : Nat
  username : String
  discriminator : Nat
deriving DecidableEq

/-- Fields of a member-removed event read by serialize_event. -/
structure MemberRemoveData where
  guild_id : Nat
  user_id : Nat
deriving DecidableEq

/-- Fields of a member-updated event read by serialize_event. -/
structure MemberUpdateData where
  guild_id : Nat
  user_id : Nat
  roles : List Nat
  nick : Option String
deriving DecidableEq

/-- Fields of an interaction-created event read by serialize_event:
id, kind (its Debug rendering), token, guild_id, the channel's id, and
author_id(). -/
structure InteractionData where
  id : Nat
  kind : String
  token : String
  guild_id : Option Nat
  channel_id : Option Nat
  author_id : Option Nat
deriving DecidableEq

/-- Fields of the Ready event read by run_shard. -/
structure ReadyData where
  guilds : List Nat
  session_id : String
deriving DecidableEq

/-- The incoming gateway event, restricted to the constructors the core
distinguishes; every other Twilight event falls into Other, the default
arm of both matches. -/
inductive Event where
  | GuildCreate (guild : GuildCreateData)
  | GuildDelete (guild : GuildDeleteData)
  | MemberAdd (member : MemberAddData)
  | MemberRemove (member : MemberRemoveData)
  | MemberUpdate (member : MemberUpdateData)
  | InteractionCreate (interaction : InteractionData)
  | GatewayHeartbeat
  | GatewayHeartbeatAck
  | GatewayHello
  | GatewayInvalidateSession
  | GatewayReconnect
  | Ready (ready : ReadyData)
  | Resumed
  | Other
deriving DecidableEq

/-! ## Envelope serialization (events/serialize.rs) -/

/-- Uniform JSON envelope (struct GatewayEvent in events/serialize.rs),
with the field set and order of the source struct. -/
structure GatewayEvent where
  event_id : String
  event_type : String
  shard_id : Nat
  timestamp : Nat
  guild_id : Option String
  channel_id : Option String
  user_id : Option String
  data : Json

/-- serialize_event from events/serialize.rs.  The source draws
event_id from Uuid::new_v4() and timestamp from SystemTime::now();
both are nondeterministic inputs and are passed here as parameters. -/
def serialize_event (event : Event) (shard_id : Nat) (event_id : String) (timestamp : Nat) :
    Option GatewayEvent :=
  match event with
  | .GuildCreate guild => some
      { event_id
      , event_type := "guild.join"
      , shard_id
      , timestamp
      , guild_id := some (toString guild.id)
      , channel_id := none
      , user_id := none
      , data := .obj
          [ ("name", .str guild.name)
          , ("member_count", jsonOfOptNat guild.member_count)
          , ("owner_id", .str (toString guild.owner_id)) ] }
  | .GuildDelete guild => some
      { event_id
      , event_type := "guild.leave"
      , shard_id
      , timestamp
      , guild_id := some (toString guild.id)
      , channel_id := none
      , user_id := none
      , data := .obj [ ("unavailable", jsonOfOptBool guild.unavailable) ] }
  | .MemberAdd member => some
      { event_id
      , event_type := "member.join"
      , shard_id
      , timestamp
      , guild_id := some (toString member.guild_id)
      , channel_id := none
      , user_id := some (toString member.user_id)
      , data := .obj
          [ ("username", .str member.username)
          , ("discriminator", .num member.discriminator) ] }
  | .MemberRemove member => some
      { event_id
      , event_type := "member.leave"
      , shard_id
      , timestamp
      , guild_id := some (toString member.guild_id)
      , channel_id := none
      , user_id := some (toString member.user_id)
      , data := .null }
  | .MemberUpdate member => some
      { event_id
      , event_type := "member.update"
      , shard_id
      , timestamp
      , guild_id := some (toString member.guild_id)
      , channel_id := none
      , user_id := some (toString member.user_id)
      , data := .obj
          [ ("roles", .arr (member.roles.map (fun r => .str (toString r))))
          , ("nick", jsonOfOptStr member.nick) ] }
  | .InteractionCreate interaction => some
      { event_id
      , event_type := "interaction.create"
      , shard_id
      , timestamp
      , guild_id := interaction.guild_id.map toString
      , channel_id := interaction.channel_id.map toString
      , user_id := interaction.author_id.map toString
      , data := .obj
          [ ("interaction_id", .str (toString interaction.id))
          , ("interaction_type", .str interaction.kind)
          , ("token", .str interaction.token) ] }
  | .GatewayHeartbeat => none
  | .GatewayHeartbeatAck => none
  | .GatewayHello => none
  | .GatewayInvalidateSession => none
  | .GatewayReconnect => none
  | .Ready _ => none
  | .Resumed => none
  | .Other => none

/-! ## Subject routing (nats/publisher.rs) -/

namespace subjects

/-- Subject prefix constant subjects::COMMANDS. -/
def COMMANDS : String := "commands"

/-- Subject prefix constant subjects::GUILD_EVENTS. -/
def GUILD_EVENTS : String := "events.guild"

/-- Subject prefix constant subjects::MEMBER_EVENTS. -/
def MEMBER_EVENTS : String := "events.member"

/-- Subject constant subjects::INTERACTION. -/
def INTERACTION : String := "commands.interaction"

end subjects

/-- Replacement of every '.' by '_' in a string; this is
str::replace('.', "_") for the single-character pattern and
single-character replacement used by route_event's default arm. -/
def replaceDots (s : String) : String :=
  String.mk (s.data.map (fun c => if c = '.' then '_' else c))

/-- NatsPublisher::route_event, a pure function of the envelope's
event_type. -/
def route_event (event_type : String) : String :=
  match event_type with
  | "interaction.create" => subjects.COMMANDS ++ ".interaction"
  | "guild.join" => subjects.GUILD_EVENTS ++ ".join"
  | "guild.leave" => subjects.GUILD_EVENTS ++ ".leave"
  | "guild.update" => subjects.GUILD_EVENTS ++ ".update"
  | "member.join" => subjects.MEMBER_EVENTS ++ ".join"
  | "member.leave" => subjects.MEMBER_EVENTS ++ ".leave"
  | "member.update" => subjects.MEMBER_EVENTS ++ ".update"
  | other => "events." ++ replaceDots other

/-! ## Error taxonomy (error.rs) -/

/-- GatewayError from error.rs; opaque error sources are modelled as
String causes. -/
inductive GatewayError where
  | ShardCircuitBroken (shard_id : Nat) (count : Nat) (max : Nat)
  | ShardReconnectFailed (shard_id : Nat) (cause : String)
  | NatsPublishFailed (subject : String) (cause : String)
  | NatsConnectionFailed (cause : String)
  | SerializationFailed (event_type : String) (shard_id : Nat) (cause : String)
  | Config (msg : String)
  | ShardIdOverflow (value : Nat)
deriving DecidableEq

/-! ## Publisher (nats/publisher.rs)

The publisher's counters are the two AtomicU64 fields; the broker and
the serde serialization step are external effects, supplied as an
oracle describing how the single publish attempt behaves. -/

/-- Counters of NatsPublisher. -/
structure PublisherCounters where
  messages_published : Nat
  publish_failures : Nat
deriving DecidableEq

/-- Behaviour of the broker for one publish attempt: the submit may
fail, the acknowledgement may fail, or the ack arrives. -/
inductive BrokerBehavior where
  | submitFail (cause : String)
  | ackFail (cause : String)
  | ackOk
deriving DecidableEq

/-- Oracle for one publish_event call: whether serde_json::to_vec fails
(with which cause), and how the broker behaves if reached. -/
structure PublishOracle where
  serialize_fail : Option String
  broker : BrokerBehavior
deriving DecidableEq

/-- Result of one publish_event call: the counters afterwards, whether
a broker publish was issued at all, and the returned value. -/
structure PublishResult where
  counters : PublisherCounters
  broker_publish_issued : Bool
  result : Except GatewayError Unit

/-- NatsPublisher::publish_event.  Mirrors the source control flow: the
subject is routed, the envelope is serialized (an error returns
SerializationFailed before any network activity and before any counter
update), then the publish is submitted and its ack awaited; the success
path increments messages_published, the submit-failure and ack-failure
paths increment publish_failures. -/
def publish_event (orc : PublishOracle) (c : PublisherCounters) (event : GatewayEvent) :
    PublishResult :=
  let subject := route_event event.event_type
  match orc.serialize_fail with
  | some cause =>
      { counters := c
      , broker_publish_issued := false
      , result := .error (.SerializationFailed event.event_type event.shard_id cause) }
  | none =>
      match orc.broker with
      | .submitFail cause =>
          { counters := { c with publish_failures := c.publish_failures + 1 }
          , broker_publish_issued := true
          , result := .error (.NatsPublishFailed subject cause) }
      | .ackFail cause =>
          { counters := { c with publish_failures := c.publish_failures + 1 }
          , broker_publish_issued := true
          , result := .error (.NatsPublishFailed subject cause) }
      | .ackOk =>
          { counters := { c with messages_published := c.messages_published + 1 }
          , broker_publish_issued := true
          , result := .ok () }

/-! ## Shard pool construction (shard/pool.rs) -/

/-- Constant SHARDS_PER_POOL. -/
def SHARDS_PER_POOL : Nat := 25

/-- Value of u32::MAX. -/
def U32_MAX : Nat := 4294967295

/-- Shard-id range computed by ShardPool::new:
(pool_id * SHARDS_PER_POOL .. min((pool_id + 1) * SHARDS_PER_POOL, total_shards))
collected into a Vec. -/
def shardIds (pool_id total_shards : Nat) : List Nat :=
  let start_shard := pool_id * SHARDS_PER_POOL
  let end_shard := min ((pool_id + 1) * SHARDS_PER_POOL) total_shards
  List.range' start_shard (end_shard - start_shard)

/-- Result of ShardPool::new (the Discord token, intents, publisher
handle and shutdown channel carry no verified behaviour and are
omitted; each constructed Shard is represented by its id). -/
structure ShardPool where
  pool_id : Nat
  shard_ids : List Nat
  state : ShardState
deriving DecidableEq

/-- ShardPool::new: compute the range, seed the state, then check that
total_shards and every shard id fit in a u32, returning ShardIdOverflow
on the first value that does not. -/
def ShardPool.new (pool_id total_shards : Nat) : Except GatewayError ShardPool :=
  let ids := shardIds pool_id total_shards
  let state := ShardState.new pool_id ids total_shards
  if total_shards > U32_MAX then
    .error (.ShardIdOverflow total_shards)
  else
    match ids.find? (fun sid => decide (sid > U32_MAX)) with
    | some sid => .error (.ShardIdOverflow sid)
    | none => .ok { pool_id, shard_ids := ids, state }

/-! ## Shard runner (run_shard in shard/pool.rs)

The event stream of the Twilight shard is modelled as a list of items:
a successfully received event (with the clock value, the generated
event id, and the publish oracle for the attempt the runner would
make), or a receive error (with its reconnect-fatal classification).
Metric calls carry no verified state and are omitted. -/

/-- One item delivered by shard.next_event. -/
inductive StreamItem where
  | event (now : Nat) (event_id : String) (e : Event) (orc : PublishOracle)
  | recvErr (reconnect_fatal : Bool) (cause : String)
deriving DecidableEq

/-- Constant MAX_CONSECUTIVE_ERRORS in run_shard. -/
def MAX_CONSECUTIVE_ERRORS : Nat := 10

/-- Mutable context of one runner: the shared shard state, the shared
publisher counters, and the local consecutive_errors counter. -/
structure RunnerState where
  state : ShardState
  counters : PublisherCounters
  consecutive_errors : Nat
deriving DecidableEq

/-- Special-event handling block of run_shard (the match on the
received event updating health, guild counts and heartbeats). -/
def handleSpecialEvent (shard_id : Nat) (now : Nat) (st : ShardState) (e : Event) : ShardState :=
  match e with
  | .Ready ready =>
      let st := st.set_health now shard_id .Ready
      st.set_guilds shard_id ready.guilds.length
  | .Resumed => st.set_health now shard_id .Ready
  | .GatewayHeartbeatAck => st.record_heartbeat now shard_id
  | .GuildCreate _ =>
      let current := st.total_guilds
      st.set_guilds shard_id (current + 1)
  | .GuildDelete guild =>
      if guild.unavailable ≠ some true then
        let current := st.total_guilds
        if current > 0 then st.set_guilds shard_id (current - 1) else st
      else st
  | _ => st

/-- Publish block of run_shard: when a publisher is configured and the
serializer yields an envelope, publish it; success records a route,
failure records a route failure and is otherwise swallowed. -/
def routeToNats (hasNats : Bool) (shard_id : Nat) (now : Nat) (event_id : String) (e : Event)
    (orc : PublishOracle) (st : ShardState) (c : PublisherCounters) :
    ShardState × PublisherCounters :=
  if hasNats then
    match serialize_event e shard_id event_id now with
    | some payload =>
        let pr := publish_event orc c payload
        match pr.result with
        | .ok _ => (st.record_route shard_id, pr.counters)
        | .error _ => (st.record_route_failure shard_id, pr.counters)
    | none => (st, c)
  else (st, c)

/-- One iteration of run_shard's while-let loop.  Returns the new
runner context and, when the loop returns, the runner's result.  The
clock argument of set_health is irrelevant on the error paths (health
never becomes Ready there), so 0 is passed. -/
def runShardStep (shard_id : Nat) (hasNats : Bool) (rs : RunnerState) (item : StreamItem) :
    RunnerState × Option (Except GatewayError Unit) :=
  match item with
  | .recvErr reconnect_fatal cause =>
    let ce := rs.consecutive_errors + 1
    if reconnect_fatal then
      ({ rs with state := rs.state.set_health 0 shard_id .Dead, consecutive_errors := ce },
       some (.error (.ShardReconnectFailed shard_id cause)))
    else if ce ≥ MAX_CONSECUTIVE_ERRORS then
      ({ rs with state := rs.state.set_health 0 shard_id .Dead, consecutive_errors := ce },
       some (.error (.ShardCircuitBroken shard_id ce MAX_CONSECUTIVE_ERRORS)))
    else
      ({ rs with state := rs.state.set_health 0 shard_id .Disconnected, consecutive_errors := ce },
       none)
  | .event now event_id e orc =>
    let st := (rs.state.record_event shard_id)
    let st := handleSpecialEvent shard_id now st e
    let pc := routeToNats hasNats shard_id now event_id e orc st rs.counters
    ({ state := pc.1, counters := pc.2, consecutive_errors := 0 }, none)

/-- The while-let loop of run_shard over a finite stream; an exhausted
stream returns ok. -/
def runShardLoop (shard_id : Nat) (hasNats : Bool) :
    RunnerState → List StreamItem → RunnerState × Except GatewayError Unit
  | rs, [] => (rs, .ok ())
  | rs, item :: rest =>
    match runShardStep shard_id hasNats rs item with
    | (rs1, some res) => (rs1, res)
    | (rs1, none) => runShardLoop shard_id hasNats rs1 rest

/-- run_shard: set health to Connecting, start with consecutive_errors
at 0, and run the loop. -/
def run_shard (shard_id : Nat) (hasNats : Bool) (st : ShardState) (c : PublisherCounters)
    (items : List StreamItem) : RunnerState × Except GatewayError Unit :=
  runShardLoop shard_id hasNats
    { state := st.set_health 0 shard_id .Connecting, counters := c, consecutive_errors := 0 }
    items

/-! ## Readiness endpoint (health/mod.rs) -/

/-- Readiness response (struct ReadyResponse in health/mod.rs). -/
structure ReadyResponse where
  ready : Bool
  pool_id : Nat
  shards_total : Nat
  shards_ready : Nat
  nats_connected : Bool
  guilds_total : Nat
deriving DecidableEq

/-- ready_handler from health/mod.rs.  The optional publisher is
represented by its is_connected() value; nats.map_or(true, is_connected)
is Option.getD over that value. -/
def ready_handler (shard_state : ShardState) (nats : Option Bool) : ReadyResponse :=
  let shards_ready := shard_state.ready_shards
  let shards_total := shard_state.shard_count
  let nats_connected := nats.getD true
  let is_ready := decide (shards_ready > 0) && nats_connected
  { ready := is_ready
  , pool_id := shard_state.pool_id
  , shards_total
  , shards_ready
  , nats_connected
  , guilds_total := shard_state.total_guilds }

/-! ## Sequences of set_health calls (for the connected_at invariant) -/

/-- One recorded set_health call. -/
structure HealthCall where
  now : Nat
  shard_id : Nat
  health : ShardHealth
deriving DecidableEq

/-- Application of a sequence of set_health calls, oldest first. -/
def applyHealthCalls (st : ShardState) : List HealthCall → ShardState
  | [] => st
  | c :: rest => applyHealthCalls (st.set_health c.now c.shard_id c.health) rest

/-- Clock value of the first call of the sequence that sets the given
shard's health to Ready, if any. -/
def firstReadyFor (shard_id : Nat) : List HealthCall → Option Nat
  | [] => none
  | c :: rest =>
    if c.shard_id = shard_id ∧ c.health = .Ready then some c.now
    else firstReadyFor shard_id rest

/-! ## Shared lemmas about the state map -/

theorem findEntry_updateEntry_self (shard_id : Nat) (f : ShardStateEntry → ShardStateEntry)
    (l : List (Nat × ShardStateEntry)) :
    findEntry shard_id (updateEntry shard_id f l) = (findEntry shard_id l).map f := by
  induction l with
  | nil => rfl
  | cons hd tl ih =>
    obtain ⟨k, e⟩ := hd
    by_cases hk : k = shard_id
    · simp [updateEntry, findEntry, hk]
    · simp [updateEntry, findEntry, hk, ih]

theorem findEntry_updateEntry_ne {sid1 sid2 : Nat} (hne : sid1 ≠ sid2)
    (f : ShardStateEntry → ShardStateEntry) (l : List (Nat × ShardStateEntry)) :
    findEntry sid1 (updateEntry sid2 f l) = findEntry sid1 l := by
  induction l with
  | nil => rfl
  | cons hd tl ih =>
    obtain ⟨k, e⟩ := hd
    by_cases hk : k = sid2
    · subst hk
      have hk1 : ¬ (k = sid1) := fun h => hne h.symm
      simp [updateEntry, findEntry, hk1]
    · simp only [updateEntry, if_neg hk]
      by_cases hk1 : k = sid1
      · simp [findEntry, hk1]
      · simp [findEntry, hk1, ih]

theorem guildsSum_updateEntry_of_guilds_eq {f : ShardStateEntry → ShardStateEntry}
    (hf : ∀ e, (f e).guilds = e.guilds) (shard_id : Nat) (l : List (Nat × ShardStateEntry)) :
    guildsSum (updateEntry shard_id f l) = guildsSum l := by
  induction l with
  | nil => rfl
  | cons hd tl ih =>
    obtain ⟨k, e⟩ := hd
    by_cases hk : k = shard_id
    · simp [updateEntry, guildsSum, hk, hf]
    · simp [updateEntry, guildsSum, hk, ih]

theorem findEntry_guilds_le_guildsSum {shard_id : Nat} {e : ShardStateEntry}
    {l : List (Nat × ShardStateEntry)} (h : findEntry shard_id l = some e) :
    e.guilds ≤ guildsSum l := by
  induction l with
  | nil => simp [findEntry] at h
  | cons hd tl ih =>
    obtain ⟨k, e1⟩ := hd
    by_cases hk : k = shard_id
    · simp only [findEntry, if_pos hk] at h
      cases h
      simp only [guildsSum]
      omega
    · simp only [findEntry, if_neg hk] at h
      have := ih h
      simp only [guildsSum]
      omega

theorem entry?_set_health (st : ShardState) (now shard_id : Nat) (h : ShardHealth) :
    (st.set_health now shard_id h).entry? shard_id
      = (st.entry? shard_id).map (applyHealthToEntry now h) := by
  simp [ShardState.set_health, ShardState.entry?, findEntry_updateEntry_self]

theorem entry?_set_health_ne {sid1 sid2 : Nat} (hne : sid1 ≠ sid2) (st : ShardState)
    (now : Nat) (h : ShardHealth) :
    (st.set_health now sid2 h).entry? sid1 = st.entry? sid1 := by
  simp [ShardState.set_health, ShardState.entry?, findEntry_updateEntry_ne hne]

theorem entry?_set_guilds (st : ShardState) (shard_id count : Nat) :
    (st.set_guilds shard_id count).entry? shard_id
      = (st.entry? shard_id).map (fun e => { e with guilds := count }) := by
  simp [ShardState.set_guilds, ShardState.entry?, findEntry_updateEntry_self]

theorem entry?_record_event (st : ShardState) (shard_id : Nat) :
    (st.record_event shard_id).entry? shard_id
      = (st.entry? shard_id).map (fun e => { e with events_received := e.events_received + 1 }) := by
  simp [ShardState.record_event, ShardState.entry?, findEntry_updateEntry_self]

theorem entry?_record_route (st : ShardState) (shard_id : Nat) :
    (st.record_route shard_id).entry? shard_id
      = (st.entry? shard_id).map (fun e => { e with events_routed := e.events_routed + 1 }) := by
  simp [ShardState.record_route, ShardState.entry?, findEntry_updateEntry_self]

theorem entry?_record_route_failure (st : ShardState) (shard_id : Nat) :
    (st.record_route_failure shard_id).entry? shard_id
      = (st.entry? shard_id).map (fun e => { e with route_failures := e.route_failures + 1 }) := by
  simp [ShardState.record_route_failure, ShardState.entry?, findEntry_updateEntry_self]

theorem total_guilds_record_event (st : ShardState) (shard_id : Nat) :
    (st.record_event shard_id).total_guilds = st.total_guilds := by
  simp only [ShardState.record_event, ShardState.total_guilds]
  exact guildsSum_updateEntry_of_guilds_eq
    (f := fun e => { e with events_received := e.events_received + 1 })
    (fun e => rfl) shard_id st.shards

theorem health_applyHealthToEntry (now : Nat) (h : ShardHealth) (e : ShardStateEntry) :
    (applyHealthToEntry now h e).health = h := by
  simp only [applyHealthToEntry]
  split <;> rfl

theorem get_health_set_health {st : ShardState} {shard_id : Nat} {e : ShardStateEntry}
    (he : st.entry? shard_id = some e) (now : Nat) (h : ShardHealth) :
    (st.set_health now shard_id h).get_health shard_id = some h := by
  simp [ShardState.get_health, entry?_set_health, he, health_applyHealthToEntry]

theorem runShardLoop_circuit_count (sid : Nat) (hN : Bool) :
    ∀ (items : List StreamItem) (rs : RunnerState),
      rs.consecutive_errors + 1 ≤ MAX_CONSECUTIVE_ERRORS →
      ∀ a cnt m, (runShardLoop sid hN rs items).2 = .error (.ShardCircuitBroken a cnt m) →
        a = sid ∧ cnt = MAX_CONSECUTIVE_ERRORS ∧ m = MAX_CONSECUTIVE_ERRORS := by
  intro items
  induction items with
  | nil =>
    intro rs hce a cnt m hres
    simp [runShardLoop] at hres
  | cons item rest ih =>
    intro rs hce a cnt m hres
    cases item with
    | event now eid e orc =>
      simp only [runShardLoop, runShardStep] at hres
      refine ih _ ?_ a cnt m hres
      show 0 + 1 ≤ MAX_CONSECUTIVE_ERRORS
      decide
    | recvErr fatal cause =>
      cases fatal with
      | true => simp [runShardLoop, runShardStep] at hres
      | false =>
        by_cases h10 : rs.consecutive_errors + 1 ≥ MAX_CONSECUTIVE_ERRORS
        · have hq : rs.consecutive_errors + 1 = MAX_CONSECUTIVE_ERRORS := le_antisymm hce h10
          simp [runShardLoop, runShardStep, h10] at hres
          obtain ⟨h1, h2, h3⟩ := hres
          refine ⟨h1.symm, ?_, h3.symm⟩
          rw [← h2]
          exact hq
        · have hlt : rs.consecutive_errors + 1 < MAX_CONSECUTIVE_ERRORS := Nat.lt_of_not_le h10
          simp [runShardLoop, runShardStep, h10] at hres
          refine ih _ ?_ a cnt m hres
          show rs.consecutive_errors + 1 + 1 ≤ MAX_CONSECUTIVE_ERRORS
          omega

theorem handleSpecialEvent_preserves_entry (sid now eidn : Nat) (eid : String)
    (st : ShardState) (e : Event) (hser : (serialize_event e sid eid eidn).isSome)
    {en : ShardStateEntry} (he : st.entry? sid = some en) :
    ∃ en2, (handleSpecialEvent sid now st e).entry? sid = some en2 ∧
      en2.health = en.health ∧ en2.events_received = en.events_received ∧
      en2.events_routed = en.events_routed ∧ en2.route_failures = en.route_failures := by
  cases e with
  | GuildCreate g =>
    refine ⟨{ en with guilds := st.total_guilds + 1 }, ?_, rfl, rfl, rfl, rfl⟩
    simp [handleSpecialEvent, entry?_set_guilds, he]
  | GuildDelete g =>
    simp only [handleSpecialEvent]
    split
    · split
      · refine ⟨{ en with guilds := st.total_guilds - 1 }, ?_, rfl, rfl, rfl, rfl⟩
        simp [entry?_set_guilds, he]
      · exact ⟨en, he, rfl, rfl, rfl, rfl⟩
    · exact ⟨en, he, rfl, rfl, rfl, rfl⟩
  | MemberAdd m => exact ⟨en, by simpa [handleSpecialEvent] using he, rfl, rfl, rfl, rfl⟩
  | MemberRemove m => exact ⟨en, by simpa [handleSpecialEvent] using he, rfl, rfl, rfl, rfl⟩
  | MemberUpdate m => exact ⟨en, by simpa [handleSpecialEvent] using he, rfl, rfl, rfl, rfl⟩
  | InteractionCreate i => exact ⟨en, by simpa [handleSpecialEvent] using he, rfl, rfl, rfl, rfl⟩
  | GatewayHeartbeat => simp [serialize_event] at hser
  | GatewayHeartbeatAck => simp [serialize_event] at hser
  | GatewayHello => simp [serialize_event] at hser
  | GatewayInvalidateSession => simp [serialize_event] at hser
  | GatewayReconnect => simp [serialize_event] at hser
  | Ready rd => simp [serialize_event] at hser
  | Resumed => simp [serialize_event] at hser
  | Other => simp [serialize_event] at hser

/-! ## Claim theorems -/

/-- C1: the claim says every Interaction-created envelope carries an
interaction_token key and never a bare token key in its data.  The
serializer in events/serialize.rs in fact emits the key "token" (and no
"interaction_token"), contradicting the repository's own wire-format
regression test, which requires interaction_token and forbids token.
This theorem evaluates serialize_event at a concrete interaction and
exhibits the bare token key. -/
theorem serialize_interaction_emits_bare_token :
    ∃ env,
      serialize_event
        (.InteractionCreate
          { id := 444444444444444444
          , kind := "ApplicationCommand"
          , token := "tok_abc"
          , guild_id := some 123456789012345678
          , channel_id := some 333333333333333333
          , author_id := some 987654321098765432 })
        0 "00000000-0000-4000-8000-000000000006" 1700000000000
      = some env ∧
      env.event_type = "interaction.create" ∧
      Json.lookupKey env.data "token" = some (.str "tok_abc") ∧
      Json.lookupKey env.data "interaction_token" = none := by
  refine ⟨_, rfl, rfl, ?_, ?_⟩ <;> rfl

/-- C2 counterexample: the claim says publish_event increments
publish_failures on every failure, including a JSON serialization
failure.  At this concrete input the serialization step fails, the call
returns SerializationFailed without issuing a broker publish, and
publish_failures stays 0 (the source returns with ? before any counter
update). -/
theorem publish_event_serialize_failure_skips_counter :
    (publish_event { serialize_fail := some "boom", broker := .ackOk }
        { messages_published := 0, publish_failures := 0 }
        { event_id := "e", event_type := "guild.join", shard_id := 3, timestamp := 0
        , guild_id := none, channel_id := none, user_id := none, data := .null }).result
      = .error (.SerializationFailed "guild.join" 3 "boom") ∧
    (publish_event { serialize_fail := some "boom", broker := .ackOk }
        { messages_published := 0, publish_failures := 0 }
        { event_id := "e", event_type := "guild.join", shard_id := 3, timestamp := 0
        , guild_id := none, channel_id := none, user_id := none, data := .null
        }).counters.publish_failures = 0 ∧
    (publish_event { serialize_fail := some "boom", broker := .ackOk }
        { messages_published := 0, publish_failures := 0 }
        { event_id := "e", event_type := "guild.join", shard_id := 3, timestamp := 0
        , guild_id := none, channel_id := none, user_id := none, data := .null
        }).broker_publish_issued = false :=
  ⟨rfl, rfl, rfl⟩

/-- C2 amended: publish_event increments messages_published by exactly
1 on success; a broker submit failure or ack failure increments
publish_failures by exactly 1; a JSON serialization failure returns
SerializationFailed with the envelope's event_type and shard_id and the
cause, without issuing any broker publish and without changing either
counter. -/
theorem publish_event_counter_behaviour :
    ∀ (c : PublisherCounters) (ev : GatewayEvent) (cause : String) (b : BrokerBehavior),
      publish_event { serialize_fail := some cause, broker := b } c ev
        = { counters := c
          , broker_publish_issued := false
          , result := .error (.SerializationFailed ev.event_type ev.shard_id cause) } ∧
      publish_event { serialize_fail := none, broker := .submitFail cause } c ev
        = { counters := { c with publish_failures := c.publish_failures + 1 }
          , broker_publish_issued := true
          , result := .error (.NatsPublishFailed (route_event ev.event_type) cause) } ∧
      publish_event { serialize_fail := none, broker := .ackFail cause } c ev
        = { counters := { c with publish_failures := c.publish_failures + 1 }
          , broker_publish_issued := true
          , result := .error (.NatsPublishFailed (route_event ev.event_type) cause) } ∧
      publish_event { serialize_fail := none, broker := .ackOk } c ev
        = { counters := { c with messages_published := c.messages_published + 1 }
          , broker_publish_issued := true
          , result := .ok () } :=
  fun _ _ _ _ => ⟨rfl, rfl, rfl, rfl⟩

/-- C4: route_event is a pure, case-sensitive, exact-match function of
event_type, mapping the seven fixed types to their listed subjects and
every other type t to "events." followed by t with each dot replaced by
an underscore. -/
theorem route_event_subject_spec :
    route_event "interaction.create" = "commands.interaction" ∧
    route_event "guild.join" = "events.guild.join" ∧
    route_event "guild.leave" = "events.guild.leave" ∧
    route_event "guild.update" = "events.guild.update" ∧
    route_event "member.join" = "events.member.join" ∧
    route_event "member.leave" = "events.member.leave" ∧
    route_event "member.update" = "events.member.update" ∧
    route_event "a.b.c" = "events.a_b_c" ∧
    (∀ t : String,
      t ≠ "interaction.create" → t ≠ "guild.join" → t ≠ "guild.leave" → t ≠ "guild.update" →
      t ≠ "member.join" → t ≠ "member.leave" → t ≠ "member.update" →
      route_event t = "events." ++ replaceDots t) := by
  refine ⟨rfl, rfl, rfl, rfl, rfl, rfl, rfl, rfl, ?_⟩
  intro t h1 h2 h3 h4 h5 h6 h7
  unfold route_event
  split
  · exact absurd rfl h1
  · exact absurd rfl h2
  · exact absurd rfl h3
  · exact absurd rfl h4
  · exact absurd rfl h5
  · exact absurd rfl h6
  · exact absurd rfl h7
  · rfl

/-- C4 witness: the general default-arm clause applied at the concrete
unknown type "x.y". -/
theorem route_event_subject_spec_witness :
    route_event "x.y" = "events.x_y" := by
  have h := route_event_subject_spec
  exact h.2.2.2.2.2.2.2.2 "x.y" (by decide) (by decide) (by decide) (by decide) (by decide)
    (by decide) (by decide)

/-- C5: the shard-id range computed by the pool constructor equals the
half-open interval from pool_id * 25 up to min((pool_id + 1) * 25,
total_shards), with the four listed concrete instances. -/
theorem shard_range_spec :
    (∀ pool_id total_shards s : Nat,
      s ∈ shardIds pool_id total_shards ↔
        pool_id * 25 ≤ s ∧ s < min ((pool_id + 1) * 25) total_shards) ∧
    shardIds 0 100 = List.range' 0 25 ∧
    shardIds 3 100 = List.range' 75 25 ∧
    shardIds 4 100 = [] ∧
    shardIds 0 10 = List.range' 0 10 := by
  refine ⟨?_, rfl, rfl, rfl, rfl⟩
  intro pool_id total_shards s
  simp only [shardIds, SHARDS_PER_POOL, List.mem_range'_1]
  omega

/-- C10: with no NATS publisher configured the readiness endpoint
reports nats_connected = true and ready is equivalent to having at
least one ready shard; with a publisher present, ready additionally
requires its is_connected() value. -/
theorem ready_handler_no_nats_spec :
    ∀ (st : ShardState) (b : Bool),
      (ready_handler st none).nats_connected = true ∧
      ((ready_handler st none).ready = true ↔ 0 < st.ready_shards) ∧
      (ready_handler st (some b)).nats_connected = b ∧
      (ready_handler st (some b)).ready = (decide (0 < st.ready_shards) && b) := by
  intro st b
  refine ⟨rfl, ?_, rfl, rfl⟩
  simp [ready_handler]

/-- C3: in the shard runner's event loop, consecutive_errors resets to
0 on every successful event receipt and increments on every receive
error; a reconnect-fatal receive error sets health to Dead and returns
ShardReconnectFailed immediately, irrespective of the counter; when the
counter reaches 10 the health is set to Dead and the runner returns
ShardCircuitBroken with count = 10 and max = 10 (and any circuit-broken
result of a full run carries exactly those values); any other receive
error sets health to Disconnected and the loop continues. -/
theorem run_shard_circuit_breaker :
    (∀ (sid : Nat) (hN : Bool) (rs : RunnerState) (now : Nat) (eid : String) (e : Event)
        (orc : PublishOracle),
      (runShardStep sid hN rs (.event now eid e orc)).1.consecutive_errors = 0 ∧
      (runShardStep sid hN rs (.event now eid e orc)).2 = none) ∧
    (∀ (sid : Nat) (hN : Bool) (rs : RunnerState) (fatal : Bool) (cause : String),
      (runShardStep sid hN rs (.recvErr fatal cause)).1.consecutive_errors
        = rs.consecutive_errors + 1) ∧
    (∀ (sid : Nat) (hN : Bool) (rs : RunnerState) (cause : String),
      (runShardStep sid hN rs (.recvErr true cause)).2
        = some (.error (.ShardReconnectFailed sid cause)) ∧
      ∀ e, rs.state.entry? sid = some e →
        (runShardStep sid hN rs (.recvErr true cause)).1.state.get_health sid = some .Dead) ∧
    (∀ (sid : Nat) (hN : Bool) (rs : RunnerState) (cause : String),
      rs.consecutive_errors + 1 = MAX_CONSECUTIVE_ERRORS →
      ((runShardStep sid hN rs (.recvErr false cause)).2
          = some (.error (.ShardCircuitBroken sid 10 10)) ∧
        ∀ e, rs.state.entry? sid = some e →
          (runShardStep sid hN rs (.recvErr false cause)).1.state.get_health sid
            = some .Dead)) ∧
    (∀ (sid : Nat) (hN : Bool) (rs : RunnerState) (cause : String),
      rs.consecutive_errors + 1 < MAX_CONSECUTIVE_ERRORS →
      ((runShardStep sid hN rs (.recvErr false cause)).2 = none ∧
        ∀ e, rs.state.entry? sid = some e →
          (runShardStep sid hN rs (.recvErr false cause)).1.state.get_health sid
            = some .Disconnected)) ∧
    (∀ (st : ShardState) (c : PublisherCounters) (items : List StreamItem) (hN : Bool)
        (sid a cnt m : Nat),
      (run_shard sid hN st c items).2 = .error (.ShardCircuitBroken a cnt m) →
        a = sid ∧ cnt = 10 ∧ m = 10) ∧
    ((run_shard 7 false (ShardState.new 0 [7] 1)
        { messages_published := 0, publish_failures := 0 }
        (List.replicate 10 (.recvErr false "io"))).2 = .error (.ShardCircuitBroken 7 10 10) ∧
      (run_shard 7 false (ShardState.new 0 [7] 1)
        { messages_published := 0, publish_failures := 0 }
        (List.replicate 10 (.recvErr false "io"))).1.state.get_health 7 = some .Dead) := by
  refine ⟨?_, ?_, ?_, ?_, ?_, ?_, rfl, rfl⟩
  · intro sid hN rs now eid e orc
    exact ⟨rfl, rfl⟩
  · intro sid hN rs fatal cause
    simp only [runShardStep]
    split
    · rfl
    · split <;> rfl
  · intro sid hN rs cause
    refine ⟨rfl, ?_⟩
    intro e he
    exact get_health_set_health he 0 .Dead
  · intro sid hN rs cause hq
    have h10 : rs.consecutive_errors + 1 ≥ MAX_CONSECUTIVE_ERRORS := le_of_eq hq.symm
    constructor
    · simp [runShardStep, h10, hq]
      rfl
    · intro e he
      have hstate : (runShardStep sid hN rs (.recvErr false cause)).1.state
          = rs.state.set_health 0 sid .Dead := by
        simp [runShardStep, h10]
      rw [hstate]
      exact get_health_set_health he 0 .Dead
  · intro sid hN rs cause hlt
    have h10 : ¬ (rs.consecutive_errors + 1 ≥ MAX_CONSECUTIVE_ERRORS) := Nat.not_le.mpr hlt
    constructor
    · simp [runShardStep, h10]
    · intro e he
      have hstate : (runShardStep sid hN rs (.recvErr false cause)).1.state
          = rs.state.set_health 0 sid .Disconnected := by
        simp [runShardStep, h10]
      rw [hstate]
      exact get_health_set_health he 0 .Disconnected
  · intro st c items hN sid a cnt m hres
    have h0 : ({ state := st.set_health 0 sid .Connecting, counters := c
               , consecutive_errors := 0 } : RunnerState).consecutive_errors + 1
        ≤ MAX_CONSECUTIVE_ERRORS := by
      show 0 + 1 ≤ MAX_CONSECUTIVE_ERRORS
      decide
    exact runShardLoop_circuit_count sid hN items _ h0 a cnt m hres

/-- C3 witness: a runner whose counter stands at 9 receives one more
non-fatal error; the step returns ShardCircuitBroken with shard_id 7,
count 10, max 10. -/
theorem run_shard_circuit_breaker_witness :
    (runShardStep 7 false
        { state := ShardState.new 0 [7] 1
        , counters := { messages_published := 0, publish_failures := 0 }
        , consecutive_errors := 9 }
        (.recvErr false "io")).2
      = some (.error (.ShardCircuitBroken 7 10 10)) := by
  have h := run_shard_circuit_breaker
  exact (h.2.2.2.1 7 false
    { state := ShardState.new 0 [7] 1
    , counters := { messages_published := 0, publish_failures := 0 }
    , consecutive_errors := 9 } "io" (by decide)).1

/-- C6: the pool constructor fails with ShardIdOverflow exactly when
total_shards, or one of the computed shard ids, exceeds u32::MAX; in
particular total_shards = 2^32 is rejected with ShardIdOverflow while
2^32 - 1 is accepted. -/
theorem pool_new_overflow_iff :
    (∀ pool_id total_shards : Nat,
      (∃ v, ShardPool.new pool_id total_shards = .error (.ShardIdOverflow v)) ↔
        (total_shards > U32_MAX ∨ ∃ s ∈ shardIds pool_id total_shards, s > U32_MAX)) ∧
    ShardPool.new 0 4294967296 = .error (.ShardIdOverflow 4294967296) ∧
    (∃ pool, ShardPool.new 0 4294967295 = .ok pool) := by
  refine ⟨?_, rfl, ⟨_, rfl⟩⟩
  intro p t
  unfold ShardPool.new
  by_cases ht : t > U32_MAX
  · rw [if_pos ht]
    constructor
    · intro _
      exact Or.inl ht
    · intro _
      exact ⟨t, rfl⟩
  · rw [if_neg ht]
    cases hf : (shardIds p t).find? (fun sid => decide (sid > U32_MAX)) with
    | some sid =>
      constructor
      · intro _
        refine Or.inr ⟨sid, List.mem_of_find?_eq_some hf, ?_⟩
        have hp := List.find?_some hf
        simpa using hp
      · intro _
        exact ⟨sid, rfl⟩
    | none =>
      constructor
      · rintro ⟨v, hv⟩
        exact Except.noConfusion hv
      · rintro (hc | ⟨s, hs, hgt⟩)
        · exact absurd hc ht
        · have := List.find?_eq_none.mp hf s hs
          simp at this
          omega

/-- A fresh single-shard runner used by the guild-accounting and
publish-failure scenarios. -/
def singleShardRunner : RunnerState :=
  { state := ShardState.new 0 [0] 1
  , counters := { messages_published := 0, publish_failures := 0 }
  , consecutive_errors := 0 }

/-- Ready event with ten guilds, as received by shard 0. -/
def readyTenItem : StreamItem :=
  .event 1 "a" (.Ready { guilds := List.range 10, session_id := "s" })
    { serialize_fail := none, broker := .ackOk }

/-- Guild-created event for the accounting scenario. -/
def guildCreateItem : StreamItem :=
  .event 2 "b" (.GuildCreate { id := 5, name := "g", member_count := none, owner_id := 1 })
    { serialize_fail := none, broker := .ackOk }

/-- Guild-deleted event with unavailable = false. -/
def guildDeleteAvailItem : StreamItem :=
  .event 3 "c" (.GuildDelete { id := 5, unavailable := some false })
    { serialize_fail := none, broker := .ackOk }

/-- Guild-deleted event with unavailable = true. -/
def guildDeleteUnavailItem : StreamItem :=
  .event 4 "d" (.GuildDelete { id := 5, unavailable := some true })
    { serialize_fail := none, broker := .ackOk }

/-- C7: guild accounting in the shard runner.  A Ready event sets the
shard's guild count to the length of ready.guilds; GuildCreate sets it
to total_guilds() + 1; GuildDelete with unavailable not equal to true
sets it to max(total_guilds() - 1, 0) (truncated Nat subtraction);
GuildDelete with unavailable = true leaves it unchanged.  For the
single-shard pool scenario: Ready with 10 guilds gives 10, GuildCreate
11, GuildDelete(unavailable=false) 10, GuildDelete(unavailable=true)
still 10. -/
theorem guild_accounting :
    (∀ (sid : Nat) (rs : RunnerState) (now : Nat) (eid : String) (rd : ReadyData)
        (orc : PublishOracle) (e : ShardStateEntry), rs.state.entry? sid = some e →
      ((runShardStep sid false rs (.event now eid (.Ready rd) orc)).1.state.entry? sid).map
        ShardStateEntry.guilds = some rd.guilds.length) ∧
    (∀ (sid : Nat) (rs : RunnerState) (now : Nat) (eid : String) (g : GuildCreateData)
        (orc : PublishOracle) (e : ShardStateEntry), rs.state.entry? sid = some e →
      ((runShardStep sid false rs (.event now eid (.GuildCreate g) orc)).1.state.entry? sid).map
        ShardStateEntry.guilds = some (rs.state.total_guilds + 1)) ∧
    (∀ (sid : Nat) (rs : RunnerState) (now : Nat) (eid : String) (g : GuildDeleteData)
        (orc : PublishOracle) (e : ShardStateEntry), rs.state.entry? sid = some e →
      g.unavailable ≠ some true →
      ((runShardStep sid false rs (.event now eid (.GuildDelete g) orc)).1.state.entry? sid).map
        ShardStateEntry.guilds = some (rs.state.total_guilds - 1)) ∧
    (∀ (sid : Nat) (rs : RunnerState) (now : Nat) (eid : String) (g : GuildDeleteData)
        (orc : PublishOracle) (e : ShardStateEntry), rs.state.entry? sid = some e →
      g.unavailable = some true →
      ((runShardStep sid false rs (.event now eid (.GuildDelete g) orc)).1.state.entry? sid).map
        ShardStateEntry.guilds = some e.guilds) ∧
    (runShardLoop 0 false singleShardRunner [readyTenItem]).1.state.total_guilds = 10 ∧
    (runShardLoop 0 false singleShardRunner
      [readyTenItem, guildCreateItem]).1.state.total_guilds = 11 ∧
    (runShardLoop 0 false singleShardRunner
      [readyTenItem, guildCreateItem, guildDeleteAvailItem]).1.state.total_guilds = 10 ∧
    (runShardLoop 0 false singleShardRunner
      [readyTenItem, guildCreateItem, guildDeleteAvailItem,
        guildDeleteUnavailItem]).1.state.total_guilds = 10 := by
  refine ⟨?_, ?_, ?_, ?_, rfl, rfl, rfl, rfl⟩
  · intro sid rs now eid rd orc e he
    show ((((rs.state.record_event sid).set_health now sid .Ready).set_guilds sid
        rd.guilds.length).entry? sid).map ShardStateEntry.guilds = some rd.guilds.length
    simp [entry?_set_guilds, entry?_set_health, entry?_record_event, he]
  · intro sid rs now eid g orc e he
    show (((rs.state.record_event sid).set_guilds sid
        ((rs.state.record_event sid).total_guilds + 1)).entry? sid).map ShardStateEntry.guilds
      = some (rs.state.total_guilds + 1)
    simp [entry?_set_guilds, entry?_record_event, he, total_guilds_record_event]
  · intro sid rs now eid g orc e he hne
    have hle : e.guilds ≤ rs.state.total_guilds := findEntry_guilds_le_guildsSum he
    show (((if g.unavailable ≠ some true then
          (if (rs.state.record_event sid).total_guilds > 0 then
            (rs.state.record_event sid).set_guilds sid
              ((rs.state.record_event sid).total_guilds - 1)
          else rs.state.record_event sid)
        else rs.state.record_event sid)).entry? sid).map ShardStateEntry.guilds
      = some (rs.state.total_guilds - 1)
    rw [if_pos hne]
    by_cases hz : (rs.state.record_event sid).total_guilds > 0
    · rw [if_pos hz]
      simp [entry?_set_guilds, entry?_record_event, he, total_guilds_record_event]
    · rw [if_neg hz]
      rw [total_guilds_record_event] at hz
      simp only [entry?_record_event, he, Option.map_some']
      have h0 : rs.state.total_guilds = 0 := by omega
      have he0 : e.guilds = 0 := by omega
      simp [he0, h0]
  · intro sid rs now eid g orc e he hg
    have hne : ¬ (g.unavailable ≠ some true) := by simp [hg]
    show (((if g.unavailable ≠ some true then
          (if (rs.state.record_event sid).total_guilds > 0 then
            (rs.state.record_event sid).set_guilds sid
              ((rs.state.record_event sid).total_guilds - 1)
          else rs.state.record_event sid)
        else rs.state.record_event sid)).entry? sid).map ShardStateEntry.guilds
      = some e.guilds
    rw [if_neg hne]
    simp [entry?_record_event, he]

/-- C7 witness: a GuildCreate received by a fresh single-shard runner
sets the shard's guild count to total_guilds() + 1 = 1. -/
theorem guild_accounting_witness :
    ((runShardStep 0 false singleShardRunner
        (.event 2 "b" (.GuildCreate { id := 5, name := "g", member_count := none, owner_id := 1 })
          { serialize_fail := none, broker := .ackOk })).1.state.entry? 0).map
      ShardStateEntry.guilds = some 1 := by
  have h := guild_accounting
  exact h.2.1 0 singleShardRunner 2 "b"
    { id := 5, name := "g", member_count := none, owner_id := 1 }
    { serialize_fail := none, broker := .ackOk } ShardStateEntry.default rfl

/-- C8 counterexample: the claim says a failed publish increments
publish_failures by exactly 1.  At this concrete input the publish
fails in the publisher's JSON serialization step: route_failures is
incremented to 1 (the failure branch ran) but publish_failures stays 0,
so the claim as stated is false on the code. -/
theorem publish_failure_serialize_mode_counterexample :
    (runShardStep 0 true singleShardRunner
        (.event 1 "a" (.GuildCreate { id := 5, name := "g", member_count := none, owner_id := 1 })
          { serialize_fail := some "boom", broker := .ackOk })).1.counters.publish_failures
      = 0 ∧
    ((runShardStep 0 true singleShardRunner
        (.event 1 "a" (.GuildCreate { id := 5, name := "g", member_count := none, owner_id := 1 })
          { serialize_fail := some "boom", broker := .ackOk })).1.state.entry? 0).map
      ShardStateEntry.route_failures = some 1 ∧
    (runShardStep 0 true singleShardRunner
        (.event 1 "a" (.GuildCreate { id := 5, name := "g", member_count := none, owner_id := 1 })
          { serialize_fail := some "boom", broker := .ackOk })).2 = none :=
  ⟨rfl, rfl, rfl⟩

/-- C8 amended: when a single publish of a serialized event fails in
the shard runner, the processing of that event increments the shard's
route_failures by exactly 1 and events_received by exactly 1, leaves
events_routed, the shard's health and messages_published unchanged, and
the runner continues; publish_failures is incremented by exactly 1 when
the failure is a broker submit or ack failure, and left unchanged when
the failure is the publisher's serialization step. -/
theorem publish_failure_isolation :
    ∀ (sid : Nat) (rs : RunnerState) (now : Nat) (eid : String) (e : Event)
      (orc : PublishOracle) (payload : GatewayEvent) (err : GatewayError)
      (en : ShardStateEntry),
      rs.state.entry? sid = some en →
      serialize_event e sid eid now = some payload →
      (publish_event orc rs.counters payload).result = .error err →
      ((runShardStep sid true rs (.event now eid e orc)).2 = none ∧
       (runShardStep sid true rs (.event now eid e orc)).1.counters.messages_published
         = rs.counters.messages_published ∧
       (runShardStep sid true rs (.event now eid e orc)).1.counters.publish_failures
         = (match orc.serialize_fail with
            | none => rs.counters.publish_failures + 1
            | some _ => rs.counters.publish_failures) ∧
       ∃ en2, (runShardStep sid true rs (.event now eid e orc)).1.state.entry? sid = some en2 ∧
         en2.route_failures = en.route_failures + 1 ∧
         en2.events_received = en.events_received + 1 ∧
         en2.events_routed = en.events_routed ∧
         en2.health = en.health) := by
  intro sid rs now eid e orc payload err en he hs hp
  have hsome : (serialize_event e sid eid now).isSome := by rw [hs]; rfl
  have hmid2 : (rs.state.record_event sid).entry? sid
      = some { en with events_received := en.events_received + 1 } := by
    rw [entry?_record_event, he]
    rfl
  obtain ⟨en2, hen2, hh, her, hrt, hrf⟩ :=
    handleSpecialEvent_preserves_entry sid now now eid (rs.state.record_event sid) e hsome hmid2
  have hstate : (runShardStep sid true rs (.event now eid e orc)).1.state
      = (handleSpecialEvent sid now (rs.state.record_event sid) e).record_route_failure sid := by
    show (routeToNats true sid now eid e orc
        (handleSpecialEvent sid now (rs.state.record_event sid) e) rs.counters).1 = _
    simp [routeToNats, hs, hp]
  have hcounters : (runShardStep sid true rs (.event now eid e orc)).1.counters
      = (publish_event orc rs.counters payload).counters := by
    show (routeToNats true sid now eid e orc
        (handleSpecialEvent sid now (rs.state.record_event sid) e) rs.counters).2 = _
    simp [routeToNats, hs, hp]
  refine ⟨rfl, ?_, ?_, ?_⟩
  · rw [hcounters]
    obtain ⟨sf, br⟩ := orc
    cases sf with
    | some cause => rfl
    | none =>
      cases br with
      | submitFail c1 => rfl
      | ackFail c1 => rfl
      | ackOk => simp [publish_event] at hp
  · rw [hcounters]
    obtain ⟨sf, br⟩ := orc
    cases sf with
    | some cause => rfl
    | none =>
      cases br with
      | submitFail c1 => rfl
      | ackFail c1 => rfl
      | ackOk => simp [publish_event] at hp
  · refine ⟨{ en2 with route_failures := en2.route_failures + 1 }, ?_, ?_, ?_, ?_, ?_⟩
    · rw [hstate, entry?_record_route_failure, hen2]
      rfl
    · simp [hrf]
    · simp [her]
    · simp [hrt]
    · simp [hh]

/-- C8 witness: a broker ack failure on a fresh single-shard runner's
GuildCreate publish; the runner continues (the step does not return). -/
theorem publish_failure_isolation_witness :
    (runShardStep 0 true singleShardRunner
        (.event 1 "a" (.GuildCreate { id := 5, name := "g", member_count := none, owner_id := 1 })
          { serialize_fail := none, broker := .ackFail "nak" })).2 = none := by
  have h := publish_failure_isolation 0 singleShardRunner 1 "a"
    (.GuildCreate { id := 5, name := "g", member_count := none, owner_id := 1 })
    { serialize_fail := none, broker := .ackFail "nak" } _ _ ShardStateEntry.default
    rfl rfl rfl
  exact h.1

/-- C9: over any sequence of set_health calls, connected_at is assigned
at most once for a shard entry, namely by the first call that sets that
shard's health to Ready: starting from any entry, the final connected_at
is the original value when it was already set, and otherwise the clock
of the first Ready-setting call for that shard (none if there is no
such call). -/
theorem connected_at_set_once :
    ∀ (st : ShardState) (shard_id : Nat) (calls : List HealthCall) (e : ShardStateEntry),
      st.entry? shard_id = some e →
      ((applyHealthCalls st calls).entry? shard_id).map ShardStateEntry.connected_at
        = some (match e.connected_at with
                | some t => some t
                | none => firstReadyFor shard_id calls) := by
  intro st sid calls
  induction calls generalizing st with
  | nil =>
    intro e he
    simp only [applyHealthCalls, he, firstReadyFor, Option.map_some']
    cases e.connected_at <;> rfl
  | cons c rest ih =>
    intro e he
    by_cases hsid : c.shard_id = sid
    · have hupd : (st.set_health c.now c.shard_id c.health).entry? sid
          = some (applyHealthToEntry c.now c.health e) := by
        rw [hsid, entry?_set_health, he, Option.map_some']
      have hstep := ih _ _ hupd
      rw [applyHealthCalls, hstep]
      congr 1
      rcases hca : e.connected_at with _ | t
      · by_cases hr : c.health = .Ready
        · simp [applyHealthToEntry, hr, hca, firstReadyFor, hsid]
        · simp [applyHealthToEntry, hr, hca, firstReadyFor, hsid]
      · simp [applyHealthToEntry, hca, firstReadyFor]
    · have hupd : (st.set_health c.now c.shard_id c.health).entry? sid = some e := by
        rw [entry?_set_health_ne (fun hh => hsid hh.symm), he]
      have hstep := ih _ _ hupd
      rw [applyHealthCalls, hstep]
      congr 1
      cases hca : e.connected_at <;> simp [firstReadyFor, hsid, hca]

/-- C9 witness: a fresh single-shard pool, with health set to
Connecting, then Ready at clock 7, then Disconnected, then Ready again
at clock 11; connected_at ends as 7, the clock of the first Ready
transition. -/
theorem connected_at_set_once_witness :
    ((applyHealthCalls (ShardState.new 0 [0] 1)
        [ { now := 5, shard_id := 0, health := .Connecting }
        , { now := 7, shard_id := 0, health := .Ready }
        , { now := 9, shard_id := 0, health := .Disconnected }
        , { now := 11, shard_id := 0, health := .Ready } ]).entry? 0).map
      ShardStateEntry.connected_at = some (some 7) := by
  have h := connected_at_set_once (ShardState.new 0 [0] 1) 0
    [ { now := 5, shard_id := 0, health := .Connecting }
    , { now := 7, shard_id := 0, health := .Ready }
    , { now := 9, shard_id := 0, health := .Disconnected }
    , { now := 11, shard_id := 0, health := .Ready } ]
    ShardStateEntry.default rfl
  exact h

end Gateway
